import Mathlib

/-!
Verification of the finding construction and override engine
(src/playbooks/robusta_playbooks/common_actions.py).

The file embeds the two actions of the module, the label extractor they
share, and the collaborator contracts they depend on (severity parsing,
template substitution, and the two event mutators), and proves the spec's
claims about them.
-/

set_option maxRecDepth 4000

/-- Severity levels of a Finding.
Modelled from the spec: the ordered enumeration DEBUG, INFO, LOW, MEDIUM,
HIGH; the concrete enum class lives in the external robusta.api package. -/
inductive FindingSeverity where
  | DEBUG
  | INFO
  | LOW
  | MEDIUM
  | HIGH
deriving DecidableEq

/-- Modelled from the spec: case-sensitive name-based parsing of a severity
string into the Severity enum, failing (returning none, the InvalidSeverity
condition) on any name that is not one of the five recognized values.  This
models both the enum name lookup used by customise_finding and the
FindingSeverity.from_severity helper used by create_finding; the spec gives
them the same failure mode. -/
def severityFromName (s : String) : Option FindingSeverity :=
  if s = "DEBUG" then some .DEBUG
  else if s = "INFO" then some .INFO
  else if s = "LOW" then some .LOW
  else if s = "MEDIUM" then some .MEDIUM
  else if s = "HIGH" then some .HIGH
  else none

/-- First character of a template placeholder identifier: underscore or an
ASCII letter (the renderer's identifier pattern, case-insensitive). -/
def isIdentStart (c : Char) : Bool :=
  c = '_' || c.isAlpha

/-- Subsequent character of a template placeholder identifier: underscore,
ASCII letter or ASCII digit. -/
def isIdentChar (c : Char) : Bool :=
  c = '_' || c.isAlpha || c.isDigit

/-- Modelled from the spec: the character scan of the safe template
renderer (Python string.Template.safe_substitute).  A dollar sign
introduces a placeholder: a doubled dollar is an escape for a literal
dollar; a dollar followed by an identifier substitutes the identifier's
value from the mapping, or leaves the whole placeholder verbatim when the
mapping lacks the identifier; a dollar followed by a braced identifier
behaves the same; any other dollar is left verbatim.  All other characters
pass through unchanged.  Substitution never fails.  The Nat argument is
structural recursion fuel: every recursive call consumes at least one
character of the input, so fuel equal to the input's length always
suffices; safe_substitute supplies exactly that. -/
def substAux (lookup : String → Option String) : Nat → List Char → List Char
  | _, [] => []
  | 0, cs => cs
  | fuel+1, c :: cs =>
    if c = '$' then
      match cs with
      | [] => ['$']
      | d :: ds =>
        if d = '$' then
          '$' :: substAux lookup fuel ds
        else if d = '{' then
          match ds with
          | [] => '$' :: substAux lookup fuel ['{']
          | e :: es =>
            if isIdentStart e then
              match es.dropWhile isIdentChar with
              | '}' :: fs =>
                match lookup (String.mk (e :: es.takeWhile isIdentChar)) with
                | some v => v.data ++ substAux lookup fuel fs
                | none =>
                  '$' :: '{' :: e ::
                    (es.takeWhile isIdentChar ++ '}' :: substAux lookup fuel fs)
              | _ => '$' :: substAux lookup fuel ('{' :: e :: es)
            else '$' :: substAux lookup fuel ('{' :: e :: es)
        else if isIdentStart d then
          match lookup (String.mk (d :: ds.takeWhile isIdentChar)) with
          | some v => v.data ++ substAux lookup fuel (ds.dropWhile isIdentChar)
          | none =>
            '$' :: d ::
              (ds.takeWhile isIdentChar ++ substAux lookup fuel (ds.dropWhile isIdentChar))
        else '$' :: substAux lookup fuel (d :: ds)
    else c :: substAux lookup fuel cs

/-- Safe template substitution on strings: render the template against the
mapping, leaving unknown placeholders verbatim. -/
def safe_substitute (template : String) (lookup : String → Option String) :
    String :=
  String.mk (substAux lookup template.data.length template.data)

/-- The subject of an event: the resource the event concerns.  The name is
required; namespace and node are optional; subject_type holds the display
string of the subject's declared kind (its enum value). -/
structure Subject where
  name : String
  subject_type : String
  namespace_ : Option String
  node : Option String
deriving DecidableEq

/-- A Finding: the structured notification record built by create_finding
and mutated by customise_finding. -/
structure Finding where
  title : String
  description : Option String
  aggregation_key : String
  severity : FindingSeverity
  subject : Subject
  source : String
deriving DecidableEq

/-- The event/pipeline context: carries the subject and source consumed by
the actions and accumulates the Findings produced so far. -/
structure ExecutionBaseEvent where
  subject : Subject
  source : String
  findings : List Finding
deriving DecidableEq

def ExecutionBaseEvent.get_subject (event : ExecutionBaseEvent) : Subject :=
  event.subject

def ExecutionBaseEvent.get_source (event : ExecutionBaseEvent) : String :=
  event.source

/-- Modelled from the spec: Event.addFinding appends a Finding to the
event's accumulated result set (the concrete method lives in the external
robusta.api package). -/
def ExecutionBaseEvent.add_finding (event : ExecutionBaseEvent)
    (finding : Finding) : ExecutionBaseEvent :=
  { event with findings := event.findings ++ [finding] }

/-- Override of a single Finding: each non-absent field replaces the
Finding's attribute; each absent field leaves the attribute at its prior
value. -/
def Finding.applyOverride (f : Finding) (title description : Option String)
    (severity : Option FindingSeverity) : Finding :=
  { f with
    title := title.getD f.title
    description := match description with
      | some d => some d
      | none => f.description
    severity := severity.getD f.severity }

/-- Modelled from the spec: Event.overrideFindingAttributes mutates the
Finding(s) the event currently holds, applying only the non-absent fields
and leaving the others at their prior values (the concrete method lives in
the external robusta.api package). -/
def ExecutionBaseEvent.override_finding_attributes (event : ExecutionBaseEvent)
    (title description : Option String) (severity : Option FindingSeverity) :
    ExecutionBaseEvent :=
  { event with
    findings := event.findings.map fun f => f.applyOverride title description severity }

/-- The sentinel substituted for any absent or unknown label. -/
def missingPlaceholder : String := "<missing>"

/-- Embedding of _get_templating_labels: a defaultdict mapping every key to
the placeholder, updated with the four subject-derived entries.  A Python
truthiness test guards namespace and node, so an absent or empty value
yields the placeholder. -/
def _get_templating_labels (event : ExecutionBaseEvent) :
    String → Option String :=
  let subject := event.get_subject
  fun key =>
    if key = "name" then some subject.name
    else if key = "kind" then some subject.subject_type
    else if key = "namespace" then
      some (match subject.namespace_ with
        | some s => if s = "" then missingPlaceholder else s
        | none => missingPlaceholder)
    else if key = "node" then
      some (match subject.node with
        | some s => if s = "" then missingPlaceholder else s
        | none => missingPlaceholder)
    else some missingPlaceholder

/-- The parameter record of customise_finding: three optional overriding
fields, each defaulting to absent. -/
structure FindingOverrides where
  title : Option String := none
  description : Option String := none
  severity : Option String := none
deriving DecidableEq

/-- The parameter record of create_finding: required title template and
aggregation key, optional description template, and a severity name that
defaults to HIGH when omitted. -/
structure FindingFields where
  title : String
  aggregation_key : String
  description : Option String := none
  severity : Option String := some "HIGH"
deriving DecidableEq

/-- The only locally raised error kind: an unrecognized severity name.  In
the source it surfaces as the exception of the severity lookup. -/
inductive ActionError where
  | invalidSeverity : String → ActionError
deriving DecidableEq

/-- Embedding of customise_finding: parse the severity name when the
parameter is truthy (a Python truthiness test, so both an absent and an
empty severity skip parsing), then render the truthy title and description
templates against the subject labels and forward the three optional
overrides to the event.  An unrecognized severity name aborts the action
before any mutation. -/
def customise_finding (event : ExecutionBaseEvent) (params : FindingOverrides) :
    Except ActionError ExecutionBaseEvent :=
  let go : Option FindingSeverity → Except ActionError ExecutionBaseEvent :=
    fun severity =>
      let labels := _get_templating_labels event
      let title := match params.title with
        | some t => if t = "" then none else some (safe_substitute t labels)
        | none => none
      let description := match params.description with
        | some d => if d = "" then none else some (safe_substitute d labels)
        | none => none
      .ok (event.override_finding_attributes title description severity)
  match params.severity with
  | none => go none
  | some s =>
    if s = "" then go none
    else
      match severityFromName s with
      | some v => go (some v)
      | none => .error (.invalidSeverity s)

/-- Embedding of create_finding: render the title (always) and the truthy
description against the subject labels, parse the severity name, and append
a new Finding carrying the event's subject and source.  An unrecognized (or
explicitly null) severity name aborts the action before the Finding is
constructed, so nothing is appended. -/
def create_finding (event : ExecutionBaseEvent) (params : FindingFields) :
    Except ActionError ExecutionBaseEvent :=
  let labels := _get_templating_labels event
  match params.severity with
  | none => .error (.invalidSeverity "None")
  | some s =>
    match severityFromName s with
    | none => .error (.invalidSeverity s)
    | some severity =>
      .ok (event.add_finding
        { title := safe_substitute params.title labels
          description := match params.description with
            | some d => if d = "" then none else some (safe_substitute d labels)
            | none => none
          aggregation_key := params.aggregation_key
          severity := severity
          subject := event.get_subject
          source := event.get_source })

deriving instance DecidableEq for Except

theorem takeWhile_all {p : Char → Bool} {l : List Char}
    (h : ∀ c ∈ l, p c = true) : l.takeWhile p = l :=
  List.takeWhile_eq_self_iff.mpr h

theorem dropWhile_all {p : Char → Bool} {l : List Char}
    (h : ∀ c ∈ l, p c = true) : l.dropWhile p = [] :=
  List.dropWhile_eq_nil_iff.mpr h

theorem substAux_nil (lookup : String → Option String) (fuel : Nat) :
    substAux lookup fuel [] = [] := by
  cases fuel <;> rfl

/-- Behavior of the renderer on a template that is exactly one unbraced
placeholder: the mapped value when the mapping knows the identifier, the
untouched placeholder when it does not. -/
theorem substAux_dollar_var (lookup : String → Option String) (fuel : Nat)
    (hd : Char) (tl : List Char) (hhd : isIdentStart hd = true)
    (htl : ∀ c ∈ tl, isIdentChar c = true) :
    substAux lookup (fuel + 1) ('$' :: hd :: tl) =
      match lookup (String.mk (hd :: tl)) with
      | some v => v.data
      | none => '$' :: hd :: tl := by
  have h1 : ¬ hd = '$' := by
    intro e
    rw [e] at hhd
    exact absurd hhd (by decide)
  have h2 : ¬ hd = '{' := by
    intro e
    rw [e] at hhd
    exact absurd hhd (by decide)
  rw [substAux.eq_def]
  simp only [if_pos rfl, if_neg h1, if_neg h2, hhd, if_pos, takeWhile_all htl,
    dropWhile_all htl, substAux_nil, List.append_nil]

/-- The renderer on a whole-template placeholder, stated on strings. -/
theorem safe_substitute_dollar_var (lookup : String → Option String)
    (hd : Char) (tl : List Char) (hhd : isIdentStart hd = true)
    (htl : ∀ c ∈ tl, isIdentChar c = true) :
    safe_substitute (String.mk ('$' :: hd :: tl)) lookup =
      match lookup (String.mk (hd :: tl)) with
      | some v => v
      | none => String.mk ('$' :: hd :: tl) := by
  show String.mk (substAux lookup (tl.length + 1 + 1) ('$' :: hd :: tl)) = _
  rw [substAux_dollar_var lookup (tl.length + 1) hd tl hhd htl]
  cases lookup (String.mk (hd :: tl)) with
  | none => rfl
  | some v => rfl

/-- A concrete subject used by witnesses and counterexamples. -/
def subjEx : Subject :=
  { name := "api-1", subject_type := "Pod", namespace_ := some "prod",
    node := none }

/-- A concrete Finding used by witnesses and counterexamples. -/
def findingEx : Finding :=
  { title := "Old Title", description := none, aggregation_key := "K",
    severity := .HIGH, subject := subjEx, source := "kubernetes" }

/-- A concrete event holding one Finding. -/
def evEx : ExecutionBaseEvent :=
  { subject := subjEx, source := "kubernetes", findings := [findingEx] }

/-- A concrete event whose subject has empty-string namespace and node. -/
def evEmptyNs : ExecutionBaseEvent :=
  { subject := { name := "api-1", subject_type := "Pod",
                 namespace_ := some "", node := some "" },
    source := "kubernetes", findings := [] }

/-- The three-key label set of the spec's rendering example. -/
def labelsC9 : String → Option String := fun key =>
  if key = "kind" then some "Pod"
  else if key = "namespace" then some "prod"
  else if key = "name" then some "api-1"
  else none

/-- Claim C9: rendering the template with the three known placeholders
against the label set mapping kind to Pod, namespace to prod and name to
api-1 yields exactly the string with each placeholder replaced and the
literal slashes preserved. -/
theorem render_known_placeholders :
    safe_substitute "$kind/$namespace/$name" labelsC9 = "Pod/prod/api-1" := by
  decide

/-- Claim C2: for every label mapping that lacks the key unknownVar,
rendering the one-placeholder template leaves it verbatim; more generally
any placeholder whose identifier is not in the supplied mapping is left
verbatim instead of failing or substituting. -/
theorem unknown_placeholder_left_verbatim :
    (∀ lookup : String → Option String, lookup "unknownVar" = none →
      safe_substitute "$unknownVar" lookup = "$unknownVar") ∧
    (∀ (lookup : String → Option String) (hd : Char) (tl : List Char),
      isIdentStart hd = true → (∀ c ∈ tl, isIdentChar c = true) →
      lookup (String.mk (hd :: tl)) = none →
      safe_substitute (String.mk ('$' :: hd :: tl)) lookup =
        String.mk ('$' :: hd :: tl)) := by
  have general : ∀ (lookup : String → Option String) (hd : Char) (tl : List Char),
      isIdentStart hd = true → (∀ c ∈ tl, isIdentChar c = true) →
      lookup (String.mk (hd :: tl)) = none →
      safe_substitute (String.mk ('$' :: hd :: tl)) lookup =
        String.mk ('$' :: hd :: tl) := by
    intro lookup hd tl hhd htl h
    have e := safe_substitute_dollar_var lookup hd tl hhd htl
    rw [h] at e
    exact e
  refine ⟨?_, general⟩
  intro lookup h
  have e := general lookup 'u' "nknownVar".data (by decide) (by decide) ?_
  · exact e
  · exact h

/-- Witness for claim C2 at the empty mapping. -/
theorem unknown_placeholder_left_verbatim_witness :
    safe_substitute "$unknownVar" (fun _ => none) = "$unknownVar" :=
  unknown_placeholder_left_verbatim.1 (fun _ => none) rfl

/-- Claim C3: the label mapping of the actions resolves every key outside
the fixed set of four to the placeholder, and rendering a placeholder for
such a key through the actions' label mapping substitutes the placeholder
string. -/
theorem labels_default_to_placeholder :
    (∀ (event : ExecutionBaseEvent) (key : String),
      key ∉ (["name", "kind", "namespace", "node"] : List String) →
      _get_templating_labels event key = some missingPlaceholder) ∧
    (∀ (event : ExecutionBaseEvent) (hd : Char) (tl : List Char),
      isIdentStart hd = true → (∀ c ∈ tl, isIdentChar c = true) →
      String.mk (hd :: tl) ∉ (["name", "kind", "namespace", "node"] : List String) →
      safe_substitute (String.mk ('$' :: hd :: tl))
        (_get_templating_labels event) = missingPlaceholder) := by
  have part1 : ∀ (event : ExecutionBaseEvent) (key : String),
      key ∉ (["name", "kind", "namespace", "node"] : List String) →
      _get_templating_labels event key = some missingPlaceholder := by
    intro event key hk
    simp only [List.mem_cons, List.mem_singleton, not_or] at hk
    obtain ⟨h1, h2, h3, h4⟩ := hk
    simp [_get_templating_labels, h1, h2, h3, h4]
  refine ⟨part1, ?_⟩
  intro event hd tl hhd htl hk
  have e := safe_substitute_dollar_var (_get_templating_labels event) hd tl hhd htl
  rw [part1 event (String.mk (hd :: tl)) hk] at e
  exact e

/-- Witness for claim C3 at the key foo. -/
theorem labels_default_to_placeholder_witness :
    _get_templating_labels evEx "foo" = some missingPlaceholder ∧
    safe_substitute (String.mk ['$', 'f', 'o', 'o'])
      (_get_templating_labels evEx) = missingPlaceholder :=
  ⟨labels_default_to_placeholder.1 evEx "foo" (by decide),
   labels_default_to_placeholder.2 evEx 'f' ['o', 'o'] (by decide) (by decide)
     (by decide)⟩

/-- Claim C4 counterexample: a subject whose namespace is set to the
non-null empty string is mapped to the placeholder, not to its exact
namespace value, refuting the claim as stated. -/
theorem namespace_label_cex :
    evEmptyNs.get_subject.namespace_ = some "" ∧
    _get_templating_labels evEmptyNs "namespace" = some missingPlaceholder ∧
    missingPlaceholder ≠ "" := by
  refine ⟨rfl, rfl, by decide⟩

/-- Claim C4 (amended): a null or empty namespace is mapped to the
placeholder; a non-null, non-empty namespace is mapped to its exact value;
and the same holds for the node key. -/
theorem namespace_node_label_extraction (event : ExecutionBaseEvent) :
    (event.get_subject.namespace_ = none →
      _get_templating_labels event "namespace" = some missingPlaceholder) ∧
    (∀ s : String, event.get_subject.namespace_ = some s → s ≠ "" →
      _get_templating_labels event "namespace" = some s) ∧
    (event.get_subject.namespace_ = some "" →
      _get_templating_labels event "namespace" = some missingPlaceholder) ∧
    (event.get_subject.node = none →
      _get_templating_labels event "node" = some missingPlaceholder) ∧
    (∀ s : String, event.get_subject.node = some s → s ≠ "" →
      _get_templating_labels event "node" = some s) ∧
    (event.get_subject.node = some "" →
      _get_templating_labels event "node" = some missingPlaceholder) := by
  refine ⟨fun h => ?_, fun s h hs => ?_, fun h => ?_, fun h => ?_,
    fun s h hs => ?_, fun h => ?_⟩
  · simp [_get_templating_labels, h]
  · simp [_get_templating_labels, h, hs]
  · simp [_get_templating_labels, h]
  · simp [_get_templating_labels, h]
  · simp [_get_templating_labels, h, hs]
  · simp [_get_templating_labels, h]

/-- Witness for claim C4 (amended) at a concrete subject with namespace
prod and absent node. -/
theorem namespace_node_label_extraction_witness :
    _get_templating_labels evEx "namespace" = some "prod" ∧
    _get_templating_labels evEx "node" = some missingPlaceholder :=
  ⟨(namespace_node_label_extraction evEx).2.1 "prod" rfl (by decide),
   (namespace_node_label_extraction evEx).2.2.2.1 rfl⟩

/-- The Finding that create_finding constructs, as a function of the parsed
severity. -/
def builtFinding (event : ExecutionBaseEvent) (p : FindingFields)
    (v : FindingSeverity) : Finding :=
  { title := safe_substitute p.title (_get_templating_labels event)
    description := match p.description with
      | some d =>
        if d = "" then none
        else some (safe_substitute d (_get_templating_labels event))
      | none => none
    aggregation_key := p.aggregation_key
    severity := v
    subject := event.get_subject
    source := event.get_source }

/-- Inversion of a successful create_finding: the new event is the old one
with exactly one Finding appended, and that Finding stores the aggregation
key parameter verbatim. -/
theorem create_finding_ok_appends (event : ExecutionBaseEvent)
    (p : FindingFields) (ev1 : ExecutionBaseEvent)
    (h : create_finding event p = .ok ev1) :
    ∃ f : Finding, ev1.findings = event.findings ++ [f] ∧
      f.aggregation_key = p.aggregation_key := by
  unfold create_finding at h
  cases hs : p.severity with
  | none =>
    rw [hs] at h
    simp at h
  | some s =>
    rw [hs] at h
    simp only [] at h
    cases hv : severityFromName s with
    | none =>
      rw [hv] at h
      simp at h
    | some v =>
      rw [hv] at h
      simp only [Except.ok.injEq] at h
      subst h
      exact ⟨_, rfl, rfl⟩

/-- Claim C1 counterexample: the empty severity string is set and is not
one of the five recognized names, yet customise_finding succeeds (treating
the empty string as absent) instead of raising InvalidSeverity. -/
theorem customise_empty_severity_cex :
    "" ∉ (["DEBUG", "INFO", "LOW", "MEDIUM", "HIGH"] : List String) ∧
    customise_finding evEx { severity := some "" } = .ok evEx := by
  exact ⟨by decide, by decide⟩

/-- Claim C1 (amended): for every event and every severity parameter set to
a non-empty string that is not one of the five recognized names, both
actions fail with InvalidSeverity; the error result carries no event, so no
Finding is added and no override reaches the event. -/
theorem invalid_severity_rejects (event : ExecutionBaseEvent) (s : String)
    (hne : s ≠ "")
    (hun : s ∉ (["DEBUG", "INFO", "LOW", "MEDIUM", "HIGH"] : List String)) :
    (∀ p : FindingFields, p.severity = some s →
      create_finding event p = .error (.invalidSeverity s)) ∧
    (∀ q : FindingOverrides, q.severity = some s →
      customise_finding event q = .error (.invalidSeverity s)) := by
  have hnone : severityFromName s = none := by
    simp only [List.mem_cons, List.mem_singleton, not_or] at hun
    obtain ⟨h1, h2, h3, h4, h5⟩ := hun
    simp [severityFromName, h1, h2, h3, h4, h5]
  constructor
  · intro p hp
    simp [create_finding, hp, hnone]
  · intro q hq
    simp [customise_finding, hq, hnone, hne]

/-- Witness for claim C1 (amended) at the severity name CRITICAL. -/
theorem invalid_severity_rejects_witness :
    create_finding evEx
      { title := "T", aggregation_key := "A", severity := some "CRITICAL" } =
      .error (.invalidSeverity "CRITICAL") ∧
    customise_finding evEx { severity := some "CRITICAL" } =
      .error (.invalidSeverity "CRITICAL") :=
  ⟨(invalid_severity_rejects evEx "CRITICAL" (by decide) (by decide)).1
      { title := "T", aggregation_key := "A", severity := some "CRITICAL" } rfl,
   (invalid_severity_rejects evEx "CRITICAL" (by decide) (by decide)).2
      { severity := some "CRITICAL" } rfl⟩

/-- Claim C5: create_finding with severity DEBUG appends a Finding of
severity DEBUG, and with the severity parameter omitted (the parameter
record default) it appends a Finding of severity HIGH. -/
theorem create_finding_severity_debug_and_default (event : ExecutionBaseEvent) :
    (∀ p : FindingFields, p.severity = some "DEBUG" →
      ∃ f : Finding, create_finding event p = .ok (event.add_finding f) ∧
        f.severity = .DEBUG) ∧
    (∀ (t k : String) (d : Option String),
      ∃ f : Finding,
        create_finding event
          { title := t, aggregation_key := k, description := d } =
          .ok (event.add_finding f) ∧ f.severity = .HIGH) := by
  constructor
  · intro p hp
    refine ⟨builtFinding event p .DEBUG, ?_, rfl⟩
    simp [create_finding, hp, severityFromName, builtFinding]
  · intro t k d
    refine ⟨builtFinding event
      { title := t, aggregation_key := k, description := d } .HIGH, ?_, rfl⟩
    simp [create_finding, severityFromName, builtFinding]

/-- Witness for claim C5 at a concrete title and aggregation key. -/
theorem create_finding_severity_debug_and_default_witness :
    (∃ f : Finding,
      create_finding evEx
        { title := "T", aggregation_key := "A", severity := some "DEBUG" } =
        .ok (evEx.add_finding f) ∧ f.severity = .DEBUG) ∧
    (∃ f : Finding,
      create_finding evEx { title := "T", aggregation_key := "A" } =
        .ok (evEx.add_finding f) ∧ f.severity = .HIGH) :=
  ⟨(create_finding_severity_debug_and_default evEx).1
      { title := "T", aggregation_key := "A", severity := some "DEBUG" } rfl,
   (create_finding_severity_debug_and_default evEx).2 "T" "A" none⟩

/-- Claim C6: every successful create_finding appends exactly one new
Finding after the existing ones, replacing or removing nothing, and two
successful calls with different aggregation keys leave the event holding
two distinct Findings, each with its own key. -/
theorem create_finding_appends_distinct (event : ExecutionBaseEvent) :
    (∀ (p : FindingFields) (ev1 : ExecutionBaseEvent),
      create_finding event p = .ok ev1 →
      ∃ f : Finding, ev1.findings = event.findings ++ [f] ∧
        f.aggregation_key = p.aggregation_key) ∧
    (∀ (p1 p2 : FindingFields) (ev1 ev2 : ExecutionBaseEvent),
      create_finding event p1 = .ok ev1 →
      create_finding ev1 p2 = .ok ev2 →
      p1.aggregation_key ≠ p2.aggregation_key →
      ∃ f1 f2 : Finding, ev2.findings = event.findings ++ [f1, f2] ∧
        f1.aggregation_key = p1.aggregation_key ∧
        f2.aggregation_key = p2.aggregation_key ∧ f1 ≠ f2) := by
  refine ⟨fun p ev1 h => create_finding_ok_appends event p ev1 h, ?_⟩
  intro p1 p2 ev1 ev2 h1 h2 hk
  obtain ⟨f1, e1, k1⟩ := create_finding_ok_appends event p1 ev1 h1
  obtain ⟨f2, e2, k2⟩ := create_finding_ok_appends ev1 p2 ev2 h2
  refine ⟨f1, f2, ?_, k1, k2, ?_⟩
  · rw [e2, e1, List.append_assoc]
    rfl
  · intro e
    apply hk
    rw [← k1, ← k2, e]

/-- First Finding appended by the C6 witness chain. -/
def fC6a : Finding :=
  { title := "T1", description := none, aggregation_key := "A1",
    severity := .HIGH, subject := subjEx, source := "kubernetes" }

/-- Second Finding appended by the C6 witness chain. -/
def fC6b : Finding :=
  { title := "T2", description := none, aggregation_key := "A2",
    severity := .HIGH, subject := subjEx, source := "kubernetes" }

/-- The event after the first witness call. -/
def evC6a : ExecutionBaseEvent := evEx.add_finding fC6a

/-- The event after the second witness call. -/
def evC6b : ExecutionBaseEvent := evC6a.add_finding fC6b

/-- Witness for claim C6: two concrete calls with keys A1 and A2. -/
theorem create_finding_appends_distinct_witness :
    ∃ f1 f2 : Finding, evC6b.findings = evEx.findings ++ [f1, f2] ∧
      f1.aggregation_key = "A1" ∧ f2.aggregation_key = "A2" ∧ f1 ≠ f2 :=
  (create_finding_appends_distinct evEx).2
    { title := "T1", aggregation_key := "A1" }
    { title := "T2", aggregation_key := "A2" } evC6a evC6b
    (by decide) (by decide) (by decide)

/-- Claim C8: the aggregation key parameter is stored in the appended
Finding literally, character for character; createFinding never passes it
through template rendering, whatever placeholder syntax it contains. -/
theorem aggregation_key_stored_literally (event : ExecutionBaseEvent)
    (p : FindingFields) (ev1 : ExecutionBaseEvent)
    (h : create_finding event p = .ok ev1) :
    ∃ f : Finding, ev1.findings = event.findings ++ [f] ∧
      f.aggregation_key = p.aggregation_key :=
  create_finding_ok_appends event p ev1 h

/-- The Finding appended by the C8 witness: its key keeps the placeholder
syntax verbatim while its title was rendered. -/
def fC8 : Finding :=
  { title := "T", description := none, aggregation_key := "$name",
    severity := .HIGH, subject := subjEx, source := "kubernetes" }

/-- Witness for claim C8 at the aggregation key containing placeholder
syntax. -/
theorem aggregation_key_stored_literally_witness :
    ∃ f : Finding, (evEx.add_finding fC8).findings = evEx.findings ++ [f] ∧
      f.aggregation_key = "$name" :=
  aggregation_key_stored_literally evEx
    { title := "T", aggregation_key := "$name" } (evEx.add_finding fC8)
    (by decide)

theorem override_preserves_length (event : ExecutionBaseEvent)
    (t d : Option String) (s : Option FindingSeverity) :
    (event.override_finding_attributes t d s).findings.length =
      event.findings.length := by
  simp [ExecutionBaseEvent.override_finding_attributes]

theorem override_none_title (event : ExecutionBaseEvent)
    (d : Option String) (s : Option FindingSeverity) :
    (event.override_finding_attributes none d s).findings.map Finding.title =
      event.findings.map Finding.title := by
  simp [ExecutionBaseEvent.override_finding_attributes, List.map_map,
    Function.comp, Finding.applyOverride]

theorem override_none_description (event : ExecutionBaseEvent)
    (t : Option String) (s : Option FindingSeverity) :
    (event.override_finding_attributes t none s).findings.map
        Finding.description =
      event.findings.map Finding.description := by
  simp [ExecutionBaseEvent.override_finding_attributes, List.map_map,
    Function.comp, Finding.applyOverride]

theorem override_none_severity (event : ExecutionBaseEvent)
    (t d : Option String) :
    (event.override_finding_attributes t d none).findings.map
        Finding.severity =
      event.findings.map Finding.severity := by
  simp [ExecutionBaseEvent.override_finding_attributes, List.map_map,
    Function.comp, Finding.applyOverride]

/-- Inversion of a successful customise_finding: the new event is an
override of the old one, and each override component is absent whenever the
corresponding parameter is absent. -/
theorem customise_finding_ok (event : ExecutionBaseEvent)
    (params : FindingOverrides) (ev1 : ExecutionBaseEvent)
    (h : customise_finding event params = .ok ev1) :
    ∃ (t d : Option String) (s : Option FindingSeverity),
      ev1 = event.override_finding_attributes t d s ∧
      (params.title = none → t = none) ∧
      (params.description = none → d = none) ∧
      (params.severity = none → s = none) := by
  unfold customise_finding at h
  cases hsev : params.severity with
  | none =>
    rw [hsev] at h
    simp only [Except.ok.injEq] at h
    refine ⟨_, _, none, h.symm, fun ht => ?_, fun hd => ?_, fun _ => rfl⟩
    · simp [ht]
    · simp [hd]
  | some s0 =>
    rw [hsev] at h
    simp only [] at h
    by_cases he : s0 = ""
    · rw [if_pos he] at h
      simp only [Except.ok.injEq] at h
      refine ⟨_, _, none, h.symm, fun ht => ?_, fun hd => ?_, fun _ => rfl⟩
      · simp [ht]
      · simp [hd]
    · rw [if_neg he] at h
      cases hv : severityFromName s0 with
      | none =>
        rw [hv] at h
        simp at h
      | some v =>
        rw [hv] at h
        simp only [Except.ok.injEq] at h
        refine ⟨_, _, some v, h.symm, fun ht => ?_, fun hd => ?_, fun hn => ?_⟩
        · simp [ht]
        · simp [hd]
        · exact absurd hn (by simp)

/-- Claim C7: a successful customise_finding never creates a Finding (the
event holds exactly as many Findings as before), and every Finding
attribute whose parameter is absent keeps its prior value on every Finding
the event holds. -/
theorem customise_overrides_only_set_fields (event : ExecutionBaseEvent)
    (params : FindingOverrides) (ev1 : ExecutionBaseEvent)
    (h : customise_finding event params = .ok ev1) :
    ev1.findings.length = event.findings.length ∧
    (params.title = none →
      ev1.findings.map Finding.title = event.findings.map Finding.title) ∧
    (params.description = none →
      ev1.findings.map Finding.description =
        event.findings.map Finding.description) ∧
    (params.severity = none →
      ev1.findings.map Finding.severity =
        event.findings.map Finding.severity) := by
  obtain ⟨t, d, s, rfl, ht, hd, hs⟩ := customise_finding_ok event params ev1 h
  refine ⟨override_preserves_length event t d s, fun h1 => ?_, fun h2 => ?_,
    fun h3 => ?_⟩
  · rw [ht h1]
    exact override_none_title event d s
  · rw [hd h2]
    exact override_none_description event t s
  · rw [hs h3]
    exact override_none_severity event t d

/-- The C7 witness event: the Finding of evEx with only severity changed. -/
def evExDebug : ExecutionBaseEvent :=
  { evEx with findings := [{ findingEx with severity := .DEBUG }] }

/-- Witness for claim C7: overriding only the severity of the event holding
the Finding titled Old Title leaves the title and description unchanged. -/
theorem customise_overrides_only_set_fields_witness :
    evExDebug.findings.length = evEx.findings.length ∧
    evExDebug.findings.map Finding.title = evEx.findings.map Finding.title ∧
    evExDebug.findings.map Finding.description =
      evEx.findings.map Finding.description :=
  have r := customise_overrides_only_set_fields evEx
    { severity := some "DEBUG" } evExDebug (by decide)
  ⟨r.1, r.2.1 rfl, r.2.2.1 rfl⟩

/-- Sends an empty-string optional parameter to an absent one; used to
state that customise_finding treats the two alike. -/
def blankToNone (o : Option String) : Option String :=
  match o with
  | some s => if s = "" then none else some s
  | none => none

theorem customise_blank_title (event : ExecutionBaseEvent)
    (tt dd sv : Option String) :
    customise_finding event
      { title := blankToNone tt, description := dd, severity := sv } =
    customise_finding event
      { title := tt, description := dd, severity := sv } := by
  cases tt with
  | none => rfl
  | some s =>
    by_cases hs : s = ""
    · simp [customise_finding, blankToNone, hs]
    · simp [customise_finding, blankToNone, hs]

theorem customise_blank_description (event : ExecutionBaseEvent)
    (tt dd sv : Option String) :
    customise_finding event
      { title := tt, description := blankToNone dd, severity := sv } =
    customise_finding event
      { title := tt, description := dd, severity := sv } := by
  cases dd with
  | none => rfl
  | some s =>
    by_cases hs : s = ""
    · simp [customise_finding, blankToNone, hs]
    · simp [customise_finding, blankToNone, hs]

theorem customise_blank_severity (event : ExecutionBaseEvent)
    (tt dd sv : Option String) :
    customise_finding event
      { title := tt, description := dd, severity := blankToNone sv } =
    customise_finding event
      { title := tt, description := dd, severity := sv } := by
  cases sv with
  | none => rfl
  | some s =>
    by_cases hs : s = ""
    · simp [customise_finding, blankToNone, hs]
    · simp [customise_finding, blankToNone, hs]

/-- Claim C10: customise_finding treats an empty-string parameter exactly
as an absent one: replacing each empty-string field by an absent field
leaves the result unchanged (so no override is passed for that field and
an empty title or description is not rendered), and an empty severity
string is never parsed, so the action succeeds rather than raising
InvalidSeverity. -/
theorem customise_empty_params_as_absent (event : ExecutionBaseEvent)
    (params : FindingOverrides) :
    customise_finding event
      { title := blankToNone params.title,
        description := blankToNone params.description,
        severity := blankToNone params.severity } =
      customise_finding event params ∧
    (params.severity = some "" →
      ∃ ev1, customise_finding event params = .ok ev1) := by
  constructor
  · have e1 := customise_blank_title event params.title
      (blankToNone params.description) (blankToNone params.severity)
    have e2 := customise_blank_description event params.title
      params.description (blankToNone params.severity)
    have e3 := customise_blank_severity event params.title params.description
      params.severity
    exact e1.trans (e2.trans e3)
  · intro hsev
    simp only [customise_finding, hsev]
    simp only [reduceIte]
    exact ⟨_, rfl⟩

/-- Witness for claim C10: all three parameters set to the empty string on
a concrete event. -/
theorem customise_empty_params_as_absent_witness :
    customise_finding evEx
      { title := blankToNone (some ""), description := blankToNone (some ""),
        severity := blankToNone (some "") } =
      customise_finding evEx
        { title := some "", description := some "", severity := some "" } ∧
    ∃ ev1, customise_finding evEx
        { title := some "", description := some "", severity := some "" } =
      .ok ev1 :=
  have r := customise_empty_params_as_absent evEx
    { title := some "", description := some "", severity := some "" }
  ⟨r.1, r.2 rfl⟩
